import Mathlib

/-!
Verification of the client-side logic of the `emsfrontend` employee
management dashboard. Each definition is a shallow embedding of a
JavaScript/JSX function from the repository; the file reference is given
in the doc comment of each definition.
-/

namespace EMS

/-- The four task states of the client-side task status model
(`new`/`active`/`completed`/`failed`; the board and the backend payload
call the first one `newTask`). -/
inductive Status where
  | newTask
  | active
  | completed
  | failed
deriving DecidableEq, Repr, Fintype

/-- The fields of a task object that the status classifiers read: the four
boolean status flags, plus an identifier standing for the rest of the record
(title, description, category, ...), which the classifiers never inspect. -/
structure Task where
  id : Nat
  newTask : Bool
  active : Bool
  completed : Bool
  failed : Bool
deriving DecidableEq, Repr

/-- The column a task is routed to by the `forEach` body of `taskColumns`
in `TaskBoard.jsx` (lines 63-69): the flags are tested in the order
`newTask`, `active`, `completed`, `failed`, and a task with no flag set
defaults to the `newTask` column. -/
def columnOf (t : Task) : Status :=
  if t.newTask then Status.newTask
  else if t.active then Status.active
  else if t.completed then Status.completed
  else if t.failed then Status.failed
  else Status.newTask

/-- The four column lists of the board (`organized` in `TaskBoard.jsx`). -/
structure Columns where
  newTask : List Task
  active : List Task
  completed : List Task
  failed : List Task
deriving DecidableEq, Repr

/-- One step of the `forEach` in `taskColumns` (`TaskBoard.jsx` lines
63-69): push the task onto the column selected by the if/else-if chain. -/
def addToColumns (org : Columns) (t : Task) : Columns :=
  if t.newTask then { org with newTask := org.newTask ++ [t] }
  else if t.active then { org with active := org.active ++ [t] }
  else if t.completed then { org with completed := org.completed ++ [t] }
  else if t.failed then { org with failed := org.failed ++ [t] }
  else { org with newTask := org.newTask ++ [t] }

/-- Function `taskColumns` of `TaskBoard.jsx` (lines 55-72): start from
four empty columns and distribute the (filtered) task list over them. -/
def taskColumns (ts : List Task) : Columns :=
  ts.foldl addToColumns ⟨[], [], [], []⟩

/-- The status computed by the recent-tasks badge of the employee
dashboard (`EmployeeDashboard`, lines 257-266): flags tested in the order
`completed`, `active`, `failed`, with fallback `New`. -/
def badgeStatus (t : Task) : Status :=
  if t.completed then Status.completed
  else if t.active then Status.active
  else if t.failed then Status.failed
  else Status.newTask

/-- The label string the badge renders for each status
(`EmployeeDashboard`, lines 263-265). -/
def badgeLabel (s : Status) : String :=
  match s with
  | Status.completed => "Completed"
  | Status.active => "Active"
  | Status.failed => "Failed"
  | Status.newTask => "New"

/-- Number of status flags set on a task. -/
def flagCount (t : Task) : Nat :=
  (cond t.newTask 1 0) + (cond t.active 1 0) +
    (cond t.completed 1 0) + (cond t.failed 1 0)

/-- The target statuses offered as action buttons for a task displayed in
a given column (`TaskBoard.jsx` lines 331-427): `newTask` column offers
Accept & Start (`active`) and Decline (`failed`); `active` offers Mark
Complete (`completed`), Mark Failed (`failed`) and Pause (`newTask`);
`completed` offers Reopen (`active`); `failed` offers Reopen (`active`)
and Reset to New (`newTask`). -/
def columnButtons (c : Status) : List Status :=
  match c with
  | Status.newTask => [Status.active, Status.failed]
  | Status.active => [Status.completed, Status.failed, Status.newTask]
  | Status.completed => [Status.active]
  | Status.failed => [Status.active, Status.newTask]

/-- The permitted transition set exactly as the specification words it
(section 4.1), used to compare against `columnButtons`. -/
def specPermitted : List (Status × Status) :=
  [(Status.newTask, Status.active), (Status.newTask, Status.failed),
   (Status.active, Status.completed), (Status.active, Status.failed),
   (Status.active, Status.newTask),
   (Status.completed, Status.active),
   (Status.failed, Status.active), (Status.failed, Status.newTask)]

/-- Projection of the column list of the board named by a status. -/
def columnList (c : Columns) (s : Status) : List Task :=
  match s with
  | Status.newTask => c.newTask
  | Status.active => c.active
  | Status.completed => c.completed
  | Status.failed => c.failed

lemma addToColumns_eq (org : Columns) (t : Task) :
    addToColumns org t =
      { newTask := org.newTask ++ if columnOf t = Status.newTask then [t] else [],
        active := org.active ++ if columnOf t = Status.active then [t] else [],
        completed := org.completed ++ if columnOf t = Status.completed then [t] else [],
        failed := org.failed ++ if columnOf t = Status.failed then [t] else [] } := by
  rcases t with ⟨i, n, a, c, f⟩
  cases n <;> cases a <;> cases c <;> cases f <;>
    simp [addToColumns, columnOf]

lemma foldl_addToColumns (ts : List Task) (acc : Columns) :
    ts.foldl addToColumns acc =
      { newTask := acc.newTask ++ ts.filter (fun t => columnOf t = Status.newTask),
        active := acc.active ++ ts.filter (fun t => columnOf t = Status.active),
        completed := acc.completed ++ ts.filter (fun t => columnOf t = Status.completed),
        failed := acc.failed ++ ts.filter (fun t => columnOf t = Status.failed) } := by
  induction ts generalizing acc with
  | nil => simp
  | cons t ts ih =>
      rw [List.foldl_cons, ih, addToColumns_eq]
      simp only [List.filter_cons, List.append_assoc]
      by_cases h1 : columnOf t = Status.newTask <;>
        by_cases h2 : columnOf t = Status.active <;>
          by_cases h3 : columnOf t = Status.completed <;>
            by_cases h4 : columnOf t = Status.failed <;>
              simp_all

/-- The board's columns are exactly the filters of the incoming list by the
classifier `columnOf`. -/
lemma taskColumns_eq_filter (ts : List Task) :
    taskColumns ts =
      { newTask := ts.filter (fun t => columnOf t = Status.newTask),
        active := ts.filter (fun t => columnOf t = Status.active),
        completed := ts.filter (fun t => columnOf t = Status.completed),
        failed := ts.filter (fun t => columnOf t = Status.failed) } := by
  rw [taskColumns, foldl_addToColumns]
  simp

lemma mem_columnList_iff (ts : List Task) (t : Task) (s : Status) :
    t ∈ columnList (taskColumns ts) s ↔ t ∈ ts ∧ columnOf t = s := by
  rw [taskColumns_eq_filter]
  cases s <;> simp [columnList, List.mem_filter]

lemma count_filter_ite (ts : List Task) (t : Task) (p : Task → Bool) :
    (ts.filter p).count t = if p t then ts.count t else 0 := by
  induction ts with
  | nil => simp
  | cons a ts ih =>
      simp only [List.filter_cons]
      by_cases h : p a <;> by_cases hat : a = t <;>
        simp_all [List.count_cons]

/-- C1: every task handed to the task board is placed in exactly one of the
four columns — its occurrence count over the four column lists equals its
count in the input list, and it belongs to the column of a unique status —
and a task with none of the four flags set lands in the `newTask` column;
the recent-tasks badge of the employee dashboard likewise renders `New`
for such a task. -/
theorem C1_column_assignment (ts : List Task) (t : Task) (ht : t ∈ ts) :
    ((taskColumns ts).newTask.count t + (taskColumns ts).active.count t +
      (taskColumns ts).completed.count t + (taskColumns ts).failed.count t
        = ts.count t)
    ∧ (∃! s : Status, t ∈ columnList (taskColumns ts) s)
    ∧ (t.newTask = false → t.active = false → t.completed = false →
        t.failed = false →
        t ∈ (taskColumns ts).newTask ∧ badgeLabel (badgeStatus t) = "New") := by
  refine ⟨?_, ⟨columnOf t, ?_, ?_⟩, ?_⟩
  · rw [taskColumns_eq_filter]
    simp only [count_filter_ite]
    cases hc : columnOf t <;> simp [hc]
  · exact (mem_columnList_iff ts t (columnOf t)).mpr ⟨ht, rfl⟩
  · intro s hs
    exact ((mem_columnList_iff ts t s).mp hs).2.symm
  · intro hn ha hc hf
    constructor
    · have : columnOf t = Status.newTask := by
        simp [columnOf, hn, ha, hc, hf]
      exact (mem_columnList_iff ts t Status.newTask).mpr ⟨ht, this⟩
    · simp [badgeStatus, badgeLabel, ha, hc, hf]

/-- Witness for `C1_column_assignment` at a concrete one-task board with a
task whose four flags are all unset. -/
theorem C1_column_assignment_witness :
    ((taskColumns [(⟨7, false, false, false, false⟩ : Task)]).newTask.count
        (⟨7, false, false, false, false⟩ : Task) +
      (taskColumns [(⟨7, false, false, false, false⟩ : Task)]).active.count
        (⟨7, false, false, false, false⟩ : Task) +
      (taskColumns [(⟨7, false, false, false, false⟩ : Task)]).completed.count
        (⟨7, false, false, false, false⟩ : Task) +
      (taskColumns [(⟨7, false, false, false, false⟩ : Task)]).failed.count
        (⟨7, false, false, false, false⟩ : Task)
        = [(⟨7, false, false, false, false⟩ : Task)].count
            (⟨7, false, false, false, false⟩ : Task))
    ∧ (∃! s : Status, (⟨7, false, false, false, false⟩ : Task) ∈
        columnList (taskColumns [(⟨7, false, false, false, false⟩ : Task)]) s)
    ∧ ((⟨7, false, false, false, false⟩ : Task) ∈
          (taskColumns [(⟨7, false, false, false, false⟩ : Task)]).newTask
        ∧ badgeLabel (badgeStatus (⟨7, false, false, false, false⟩ : Task))
            = "New") :=
  ⟨(C1_column_assignment [⟨7, false, false, false, false⟩]
      ⟨7, false, false, false, false⟩ (List.mem_singleton.mpr rfl)).1,
   (C1_column_assignment [⟨7, false, false, false, false⟩]
      ⟨7, false, false, false, false⟩ (List.mem_singleton.mpr rfl)).2.1,
   (C1_column_assignment [⟨7, false, false, false, false⟩]
      ⟨7, false, false, false, false⟩ (List.mem_singleton.mpr rfl)).2.2
     rfl rfl rfl rfl⟩

/-- C2: the task board offers a button moving a task shown in column `c` to
status `s` exactly when `(c, s)` is in the permitted transition set worded
by the specification; no button invokes a transition outside that set. -/
theorem C2_permitted_transitions :
    ∀ c s : Status, s ∈ columnButtons c ↔ (c, s) ∈ specPermitted := by
  decide

/-- C9: on every task with at most one status flag set, the task board's
column classifier and the employee dashboard's badge classifier agree,
despite testing the flags in different orders. -/
theorem C9_classifiers_agree (t : Task) (h : flagCount t ≤ 1) :
    columnOf t = badgeStatus t := by
  rcases t with ⟨i, n, a, c, f⟩
  cases n <;> cases a <;> cases c <;> cases f <;>
    simp_all [flagCount, columnOf, badgeStatus]

/-- Witness for `C9_classifiers_agree` on a concrete task with exactly the
`active` flag set. -/
theorem C9_classifiers_agree_witness :
    flagCount ⟨3, false, true, false, false⟩ ≤ 1 ∧
      columnOf ⟨3, false, true, false, false⟩ =
        badgeStatus ⟨3, false, true, false, false⟩ :=
  ⟨by decide, C9_classifiers_agree ⟨3, false, true, false, false⟩ (by decide)⟩

/-- JavaScript `x || fallback` on a string-valued expression that may be
absent: the fallback is used when the value is absent or is the empty
string, both falsy in JavaScript. -/
def jsOr (m : Option String) (fallback : String) : String :=
  match m with
  | none => fallback
  | some s => if s = "" then fallback else s

/-- The `statusUpdate` payload built by `handleTaskStatusUpdate`
(`EmployeeDashboard`, lines 92-97): exactly the flag of the target status
is set. -/
structure StatusUpdate where
  newTask : Bool
  active : Bool
  completed : Bool
  failed : Bool
deriving DecidableEq, Repr

/-- Conversion of the target status to the backend payload format
(`EmployeeDashboard`, lines 92-97). -/
def statusUpdatePayload (newStatus : Status) : StatusUpdate :=
  { newTask := newStatus == Status.newTask,
    active := newStatus == Status.active,
    completed := newStatus == Status.completed,
    failed := newStatus == Status.failed }

/-- The employee data held by the dashboard (`employeeData`): the task
list and the per-status task counts returned by the profile endpoint. -/
structure EmployeeProfile where
  tasks : List Task
  newTaskCount : Nat
  activeCount : Nat
  completedCount : Nat
  failedCount : Nat
deriving DecidableEq, Repr

/-- Observable UI effects of the status-update flow, in order of
occurrence. -/
inductive UIEvent where
  | confirmPrompt (target : Status)
  | apiCall (taskId : Nat) (payload : StatusUpdate)
  | refetch
  | successToast (target : Status)
  | errorToast (msg : String)
deriving DecidableEq, Repr

/-- Function `handleTaskStatusUpdate` of `EmployeeDashboard` (lines
87-122): convert the target status to the payload format, call the
update-status endpoint, on success re-fetch the employee data (replacing
`employeeData` wholesale by the fetched profile) and show a success toast;
on a thrown error show the error message (or a fallback) and leave
`employeeData` untouched. The endpoint outcome is the `api` argument and
the profile the re-fetch returns is the `fetched` argument. -/
def handleTaskStatusUpdate (taskId : Nat) (newStatus : Status)
    (api : Except String Unit) (fetched : EmployeeProfile)
    (st : Option EmployeeProfile) : Option EmployeeProfile × List UIEvent :=
  match api with
  | Except.ok _ =>
      (some fetched,
        [UIEvent.apiCall taskId (statusUpdatePayload newStatus),
         UIEvent.refetch, UIEvent.successToast newStatus])
  | Except.error e =>
      (st,
        [UIEvent.apiCall taskId (statusUpdatePayload newStatus),
         UIEvent.errorToast
           (jsOr (some e) "Failed to update task status. Please try again.")])

/-- Function `handleStatusChange` of `TaskBoard.jsx` (lines 81-106): show
the confirmation prompt first; only when the user confirms is
`onTaskUpdate` (the `handleTaskStatusUpdate` above) invoked. -/
def handleStatusChange (task : Task) (newStatus : Status) (confirmed : Bool)
    (api : Except String Unit) (fetched : EmployeeProfile)
    (st : Option EmployeeProfile) : Option EmployeeProfile × List UIEvent :=
  if confirmed then
    let r := handleTaskStatusUpdate task.id newStatus api fetched st
    (r.1, UIEvent.confirmPrompt newStatus :: r.2)
  else
    (st, [UIEvent.confirmPrompt newStatus])

/-- C3: for every UI-initiated status transition, the confirmation prompt
is the first observable event; without confirmation no endpoint call
happens and the data is unchanged; on confirmation the update-status
endpoint is called with the target-state payload; on success the employee
data is replaced wholesale by the re-fetched profile (no local mutation);
on failure an error toast is surfaced, no re-fetch happens, and the held
task data — hence every task's displayed column — is unchanged. -/
theorem C3_status_update_flow (task : Task) (newStatus : Status)
    (confirmed : Bool) (api : Except String Unit)
    (fetched : EmployeeProfile) (st : Option EmployeeProfile) :
    ((handleStatusChange task newStatus confirmed api fetched st).2.head? =
        some (UIEvent.confirmPrompt newStatus))
    ∧ (confirmed = false →
        (handleStatusChange task newStatus confirmed api fetched st).1 = st ∧
        ∀ tid p, UIEvent.apiCall tid p ∉
          (handleStatusChange task newStatus confirmed api fetched st).2)
    ∧ (confirmed = true →
        UIEvent.apiCall task.id (statusUpdatePayload newStatus) ∈
          (handleStatusChange task newStatus confirmed api fetched st).2)
    ∧ (confirmed = true → api = Except.ok () →
        (handleStatusChange task newStatus confirmed api fetched st).1 =
            some fetched ∧
        UIEvent.refetch ∈
          (handleStatusChange task newStatus confirmed api fetched st).2)
    ∧ (∀ e, confirmed = true → api = Except.error e →
        (handleStatusChange task newStatus confirmed api fetched st).1 = st ∧
        UIEvent.refetch ∉
          (handleStatusChange task newStatus confirmed api fetched st).2 ∧
        (∃ msg, UIEvent.errorToast msg ∈
          (handleStatusChange task newStatus confirmed api fetched st).2) ∧
        Option.map (fun p => taskColumns p.tasks)
            (handleStatusChange task newStatus confirmed api fetched st).1 =
          Option.map (fun p => taskColumns p.tasks) st) := by
  cases confirmed <;> rcases api with e | u <;>
    simp [handleStatusChange, handleTaskStatusUpdate]

/-- Witness for `C3_status_update_flow` at a concrete confirmed, successful
transition of a one-task board. -/
theorem C3_status_update_flow_witness :
    ((handleStatusChange ⟨1, true, false, false, false⟩ Status.active true
        (Except.ok ()) ⟨[⟨1, false, true, false, false⟩], 0, 1, 0, 0⟩
        (some ⟨[⟨1, true, false, false, false⟩], 1, 0, 0, 0⟩)).2.head? =
      some (UIEvent.confirmPrompt Status.active))
    ∧ (UIEvent.apiCall 1 (statusUpdatePayload Status.active) ∈
        (handleStatusChange ⟨1, true, false, false, false⟩ Status.active true
          (Except.ok ()) ⟨[⟨1, false, true, false, false⟩], 0, 1, 0, 0⟩
          (some ⟨[⟨1, true, false, false, false⟩], 1, 0, 0, 0⟩)).2)
    ∧ ((handleStatusChange ⟨1, true, false, false, false⟩ Status.active true
          (Except.ok ()) ⟨[⟨1, false, true, false, false⟩], 0, 1, 0, 0⟩
          (some ⟨[⟨1, true, false, false, false⟩], 1, 0, 0, 0⟩)).1 =
        some ⟨[⟨1, false, true, false, false⟩], 0, 1, 0, 0⟩ ∧
      UIEvent.refetch ∈
        (handleStatusChange ⟨1, true, false, false, false⟩ Status.active true
          (Except.ok ()) ⟨[⟨1, false, true, false, false⟩], 0, 1, 0, 0⟩
          (some ⟨[⟨1, true, false, false, false⟩], 1, 0, 0, 0⟩)).2) :=
  ⟨(C3_status_update_flow ⟨1, true, false, false, false⟩ Status.active true
      (Except.ok ()) ⟨[⟨1, false, true, false, false⟩], 0, 1, 0, 0⟩
      (some ⟨[⟨1, true, false, false, false⟩], 1, 0, 0, 0⟩)).1,
   (C3_status_update_flow ⟨1, true, false, false, false⟩ Status.active true
      (Except.ok ()) ⟨[⟨1, false, true, false, false⟩], 0, 1, 0, 0⟩
      (some ⟨[⟨1, true, false, false, false⟩], 1, 0, 0, 0⟩)).2.2.1 rfl,
   (C3_status_update_flow ⟨1, true, false, false, false⟩ Status.active true
      (Except.ok ()) ⟨[⟨1, false, true, false, false⟩], 0, 1, 0, 0⟩
      (some ⟨[⟨1, true, false, false, false⟩], 1, 0, 0, 0⟩)).2.2.2.1 rfl rfl⟩

/-- Parsed JSON body of a backend response: the optional `message` field
read by the error path, plus a payload string standing for the rest of the
parsed object. -/
structure JsonBody where
  message : Option String
  payload : String
deriving DecidableEq, Repr

/-- Outcome of `fetch` followed by `response.json()`: either the network
layer threw, or a response arrived with an HTTP status code and a parsed
body. -/
inductive FetchOutcome where
  | networkFailure (e : String)
  | response (status : Nat) (body : JsonBody)
deriving DecidableEq, Repr

/-- Property `response.ok` of the Fetch API: status in the 2xx range. -/
def responseOk (status : Nat) : Bool :=
  decide (200 ≤ status) && decide (status < 300)

/-- The response handling shared verbatim by `ApiService.request`
(ApiUtils.js lines 342-354) and `ApiServiceV2.request` (lines 105-117):
rethrow a network failure, throw `data.message || 'Something went wrong'`
when `response.ok` is false, and return the parsed body otherwise. -/
def request (r : FetchOutcome) : Except String JsonBody :=
  match r with
  | FetchOutcome.networkFailure e => Except.error e
  | FetchOutcome.response status body =>
      if responseOk status then Except.ok body
      else Except.error (jsOr body.message "Something went wrong")

/-- Counterexample to C4 as stated: for a non-2xx response whose body has
the `message` field present but equal to the empty string, the thrown
message is the generic fallback, not the present `message` field, because
the JavaScript `||` operator treats the empty string as falsy. -/
theorem C4_request_counterexample :
    (JsonBody.message ⟨some "", "body"⟩ = some "")
    ∧ request (FetchOutcome.response 500 ⟨some "", "body"⟩) =
        Except.error "Something went wrong"
    ∧ "Something went wrong" ≠ "" := by
  exact ⟨rfl, rfl, by decide⟩

/-- C4 (amended): for every fetch outcome, the request function returns
the parsed JSON body when the status is 2xx and throws on any network
failure or non-2xx response; in the non-2xx case the thrown message is the
body's `message` field when that field is present and non-empty, and the
generic fallback when the field is absent or empty. -/
theorem C4_request_contract (r : FetchOutcome) :
    (∀ status body, r = FetchOutcome.response status body →
      200 ≤ status → status < 300 → request r = Except.ok body)
    ∧ (∀ status body, r = FetchOutcome.response status body →
        ¬(200 ≤ status ∧ status < 300) →
        (∀ s, body.message = some s → s ≠ "" →
          request r = Except.error s)
        ∧ (body.message = none →
            request r = Except.error "Something went wrong")
        ∧ (body.message = some "" →
            request r = Except.error "Something went wrong"))
    ∧ (∀ e, r = FetchOutcome.networkFailure e →
        request r = Except.error e) := by
  refine ⟨?_, ?_, ?_⟩
  · rintro status body rfl h1 h2
    simp [request, responseOk, h1, h2]
  · rintro status body rfl h
    have hok : responseOk status = false := by
      simp [responseOk]
      omega
    refine ⟨?_, ?_, ?_⟩
    · intro s hs hne
      simp [request, hok, jsOr, hs, hne]
    · intro hs
      simp [request, hok, jsOr, hs]
    · intro hs
      simp [request, hok, jsOr, hs]
  · rintro e rfl
    rfl

/-- Witness for `C4_request_contract` at a concrete successful response
and a concrete 404 with a non-empty message. -/
theorem C4_request_contract_witness :
    request (FetchOutcome.response 200 ⟨some "ok", "data"⟩) =
        Except.ok ⟨some "ok", "data"⟩
    ∧ request (FetchOutcome.response 404 ⟨some "Not found", "data"⟩) =
        Except.error "Not found" := by
  constructor
  · exact (C4_request_contract
      (FetchOutcome.response 200 ⟨some "ok", "data"⟩)).1 200 ⟨some "ok", "data"⟩
      rfl (by decide) (by decide)
  · exact ((C4_request_contract
      (FetchOutcome.response 404 ⟨some "Not found", "data"⟩)).2.1 404
      ⟨some "Not found", "data"⟩ rfl (by omega)).1 "Not found" rfl (by decide)

/-- The dashboard statistics object; its zeroed default is the `.catch`
fallback of `fetchDashboardData` (`AdminDashboard.jsx` line 61). -/
structure DashboardStats where
  totalEmployees : Nat
  totalTasks : Nat
  completedTasks : Nat
  pendingTasks : Nat
deriving DecidableEq, Repr

/-- Employee record held in admin dashboard state; an identifier stands
for the full record. -/
structure Employee where
  id : Nat
deriving DecidableEq, Repr

/-- The admin dashboard state set by `fetchDashboardData`
(`AdminDashboard.jsx` lines 66-70). -/
structure DashboardData where
  stats : DashboardStats
  employees : List Employee
  tasks : List Task
deriving DecidableEq, Repr

/-- JavaScript `promise.catch(() => d)`: replace a rejected result by the
default `d`. -/
def catchWith {α : Type} (r : Except String α) (d : α) : α :=
  match r with
  | Except.ok v => v
  | Except.error _ => d

/-- Function `fetchDashboardData` of `AdminDashboard.jsx` (lines 54-78):
three requests (stats, employees, tasks) joined by `Promise.all`, each
wrapped in its own `.catch` producing a zeroed stats object, an empty
employee list, and an empty task list respectively. -/
def fetchDashboardData (stats : Except String DashboardStats)
    (employees : Except String (List Employee))
    (tasks : Except String (List Task)) : DashboardData :=
  { stats := catchWith stats ⟨0, 0, 0, 0⟩,
    employees := catchWith employees [],
    tasks := catchWith tasks [] }

/-- C5: each of the three dashboard requests is caught independently — a
failed request is replaced by its default (zeroed stats, empty employees,
empty tasks), a successful one is used unchanged, and each panel's data
depends only on its own request, so a single failure never affects the
other two panels. -/
theorem C5_dashboard_partial_failure
    (rs : Except String DashboardStats)
    (re : Except String (List Employee))
    (rt : Except String (List Task)) :
    ((∀ e, rs = Except.error e →
        (fetchDashboardData rs re rt).stats = ⟨0, 0, 0, 0⟩)
      ∧ ∀ v, rs = Except.ok v → (fetchDashboardData rs re rt).stats = v)
    ∧ ((∀ e, re = Except.error e →
          (fetchDashboardData rs re rt).employees = [])
        ∧ ∀ v, re = Except.ok v →
          (fetchDashboardData rs re rt).employees = v)
    ∧ ((∀ e, rt = Except.error e →
          (fetchDashboardData rs re rt).tasks = [])
        ∧ ∀ v, rt = Except.ok v → (fetchDashboardData rs re rt).tasks = v)
    ∧ (∀ rs' rt',
        (fetchDashboardData rs re rt).employees =
          (fetchDashboardData rs' re rt').employees)
    ∧ (∀ re' rt',
        (fetchDashboardData rs re rt).stats =
          (fetchDashboardData rs re' rt').stats)
    ∧ (∀ rs' re',
        (fetchDashboardData rs re rt).tasks =
          (fetchDashboardData rs' re' rt).tasks) := by
  refine ⟨⟨?_, ?_⟩, ⟨?_, ?_⟩, ⟨?_, ?_⟩, ?_, ?_, ?_⟩ <;>
    first
      | (rintro x rfl; rfl)
      | (intro x y; rfl)

/-- Witness for `C5_dashboard_partial_failure` at a concrete refresh where
the stats request fails and the other two succeed. -/
theorem C5_dashboard_partial_failure_witness :
    ((fetchDashboardData (Except.error "boom")
        (Except.ok [⟨4⟩]) (Except.ok [⟨9, true, false, false, false⟩])).stats
      = ⟨0, 0, 0, 0⟩)
    ∧ ((fetchDashboardData (Except.error "boom")
        (Except.ok [⟨4⟩]) (Except.ok [⟨9, true, false, false, false⟩])).employees
      = [⟨4⟩])
    ∧ ((fetchDashboardData (Except.error "boom")
        (Except.ok [⟨4⟩]) (Except.ok [⟨9, true, false, false, false⟩])).tasks
      = [⟨9, true, false, false, false⟩]) :=
  ⟨(C5_dashboard_partial_failure (Except.error "boom") (Except.ok [⟨4⟩])
      (Except.ok [⟨9, true, false, false, false⟩])).1.1 "boom" rfl,
   (C5_dashboard_partial_failure (Except.error "boom") (Except.ok [⟨4⟩])
      (Except.ok [⟨9, true, false, false, false⟩])).2.1.2 [⟨4⟩] rfl,
   (C5_dashboard_partial_failure (Except.error "boom") (Except.ok [⟨4⟩])
      (Except.ok [⟨9, true, false, false, false⟩])).2.2.1.2
      [⟨9, true, false, false, false⟩] rfl⟩

/-- The user object of a login response; the role string plus an
identifier standing for the rest of the profile. -/
structure User where
  id : Nat
  role : String
deriving DecidableEq, Repr

/-- Parsed body of the `/auth/login` endpoint: the `success` flag checked
by `AuthProvider.login`, the user, the token stored on success, and the
optional message surfaced on failure. -/
structure LoginResponse where
  success : Bool
  user : User
  token : String
  message : Option String
deriving DecidableEq, Repr

/-- The in-memory session held by `AuthProvider` (`userData`): role plus
profile. -/
structure Session where
  role : String
  data : User
deriving DecidableEq, Repr

/-- Client-side auth state: the two persisted localStorage items
(`authToken`, `loggedInUser`) and the in-memory `userData`. -/
structure AuthState where
  authToken : Option String
  loggedInUser : Option Session
  userData : Option Session
deriving DecidableEq, Repr

/-- The value `AuthProvider.login` resolves with. -/
structure LoginResult where
  success : Bool
  message : Option String
deriving DecidableEq, Repr

/-- Function `login` of `AuthProvider.jsx` (lines 31-52) combined with
`ApiService.login` (ApiUtils.js lines 358-369, which stores the token when
`response.success`): on a successful response the session is created in
memory and persisted and `success: true` is returned; on `success: false`
or a thrown error the state is untouched and `success: false` with a
message is returned. -/
def login (api : Except String LoginResponse) (st : AuthState) :
    AuthState × LoginResult :=
  match api with
  | Except.error e =>
      (st, { success := false, message := some (jsOr (some e) "Login failed") })
  | Except.ok resp =>
      if resp.success then
        ({ authToken := some resp.token,
           loggedInUser := some { role := resp.user.role, data := resp.user },
           userData := some { role := resp.user.role, data := resp.user } },
         { success := true, message := none })
      else
        (st, { success := false, message := resp.message })

/-- Navigation performed by `AuthLayout` (App.jsx lines 44-52): with a
session present, navigate by role; with no session, stay on the auth
page. -/
def authLayoutNav (userData : Option Session) : Option String :=
  match userData with
  | none => none
  | some s =>
      if s.role = "admin" then some "/admin/dashboard"
      else if s.role = "employee" then some "/employee/dashboard"
      else none

/-- The alert shown by `LoginHandler` (App.jsx lines 64-78): nothing on
success, `result.message || "Invalid credentials"` on failure. -/
def loginHandlerAlert (r : LoginResult) : Option String :=
  if r.success then none
  else some (jsOr r.message "Invalid credentials")

/-- C6: starting from an absent session, a successful login with role
`admin` navigates to `/admin/dashboard` and with role `employee` to
`/employee/dashboard`, with no error alert; an unsuccessful response or a
thrown error shows an error alert, performs no navigation, and leaves the
session absent. -/
theorem C6_login_routing (api : Except String LoginResponse)
    (st : AuthState) (h0 : st.userData = none) :
    (∀ resp, api = Except.ok resp → resp.success = true →
      resp.user.role = "admin" →
        authLayoutNav (login api st).1.userData = some "/admin/dashboard" ∧
        loginHandlerAlert (login api st).2 = none)
    ∧ (∀ resp, api = Except.ok resp → resp.success = true →
        resp.user.role = "employee" →
          authLayoutNav (login api st).1.userData =
              some "/employee/dashboard" ∧
          loginHandlerAlert (login api st).2 = none)
    ∧ (∀ resp, api = Except.ok resp → resp.success = false →
        (login api st).2.success = false ∧
        (∃ m, loginHandlerAlert (login api st).2 = some m) ∧
        (login api st).1.userData = none ∧
        authLayoutNav (login api st).1.userData = none)
    ∧ (∀ e, api = Except.error e →
        (login api st).2.success = false ∧
        (∃ m, loginHandlerAlert (login api st).2 = some m) ∧
        (login api st).1.userData = none ∧
        authLayoutNav (login api st).1.userData = none) := by
  refine ⟨?_, ?_, ?_, ?_⟩
  · rintro resp rfl hs hr
    simp [login, hs, authLayoutNav, hr, loginHandlerAlert]
  · rintro resp rfl hs hr
    simp [login, hs, authLayoutNav, hr, loginHandlerAlert]
  · rintro resp rfl hs
    simp [login, hs, authLayoutNav, loginHandlerAlert, h0]
  · rintro e rfl
    simp [login, authLayoutNav, loginHandlerAlert, h0]

/-- Witness for `C6_login_routing` at a concrete successful admin login
from the empty auth state. -/
theorem C6_login_routing_witness :
    authLayoutNav
        (login (Except.ok ⟨true, ⟨5, "admin"⟩, "tok", none⟩)
          (AuthState.mk none none none)).1.userData =
      some "/admin/dashboard"
    ∧ loginHandlerAlert
        (login (Except.ok ⟨true, ⟨5, "admin"⟩, "tok", none⟩)
          (AuthState.mk none none none)).2 = none :=
  (C6_login_routing (Except.ok ⟨true, ⟨5, "admin"⟩, "tok", none⟩)
      (AuthState.mk none none none) rfl).1
    ⟨true, ⟨5, "admin"⟩, "tok", none⟩ rfl rfl rfl

/-- Function `logout` of `AuthProvider.jsx` (lines 100-104) together with
`ApiService.logout` (ApiUtils.js lines 462-465): clear the stored token,
remove the persisted logged-in user, and null the in-memory session. -/
def logout (st : AuthState) : AuthState :=
  { st with authToken := none, loggedInUser := none, userData := none }

/-- What a route element renders. -/
inductive RouteRender where
  | loadingView
  | navigateLogin
  | content
deriving DecidableEq, Repr

/-- Component `ProtectedRoute` of App.jsx (lines 13-36): show the loading
view while auth state hydrates; redirect to `/login` when no session is
present or the session's role differs from the required role; otherwise
render the protected content. -/
def protectedRoute (loading : Bool) (userData : Option Session)
    (requiredRole : Option String) : RouteRender :=
  if loading then RouteRender.loadingView
  else
    match userData with
    | none => RouteRender.navigateLogin
    | some s =>
        match requiredRole with
        | some r =>
            if s.role ≠ r then RouteRender.navigateLogin
            else RouteRender.content
        | none => RouteRender.content

/-- C7: logout removes both persisted session items (auth token and stored
logged-in user) and clears the in-memory session, and in the resulting
state every protected route — whatever role it requires — renders a
redirect to `/login` instead of its content. -/
theorem C7_logout_clears_session (st : AuthState) :
    (logout st).authToken = none
    ∧ (logout st).loggedInUser = none
    ∧ (logout st).userData = none
    ∧ ∀ role : String,
        protectedRoute false (logout st).userData (some role) =
          RouteRender.navigateLogin := by
  refine ⟨rfl, rfl, rfl, fun role => rfl⟩

/-- Value `config.API_BASE_URL` of `src/config/config.js`: the
`VITE_API_BASE_URL` environment variable, with JavaScript `||` fallback to
`http://localhost:5000`. -/
def configApiBaseUrl (viteApiBaseUrl : Option String) : String :=
  jsOr viteApiBaseUrl "http://localhost:5000"

/-- Function `ApiUtils.buildUrl` (ApiUtils.js lines 12-16): strip a
leading slash from the endpoint and append it to the configured base
URL. -/
def buildUrl (base endpoint : String) : String :=
  let cleanEndpoint :=
    if endpoint.data.head? = some '/' then String.mk (endpoint.data.drop 1)
    else endpoint
  base ++ "/" ++ cleanEndpoint

/-- The hardcoded base URL of `ApiService` — the client the application
components import as `services/apiService` (ApiUtils.js line 311). -/
def apiServiceBaseUrl : String := "http://localhost:5000/api"

/-- URL built by `ApiService.request` (ApiUtils.js line 329): the
hardcoded base concatenated with the endpoint; the environment-derived
configuration is not consulted. -/
def apiServiceRequestUrl (endpoint : String) : String :=
  apiServiceBaseUrl ++ endpoint

/-- URL built by `ApiServiceV2.request` (ApiUtils.js line 94) through
`ApiUtils.buildUrl`: derived from the configured base URL. -/
def apiServiceV2RequestUrl (viteApiBaseUrl : Option String)
    (endpoint : String) : String :=
  buildUrl (configApiBaseUrl viteApiBaseUrl) endpoint

/-- C8 exhibit: with the deployed backend configured in the environment
variable, the URL built by the `ApiService` client actually imported by
the application components is still the hardcoded localhost URL, while the
config-based `ApiServiceV2`/`ApiUtils.buildUrl` path yields the configured
URL; the two disagree, so not every request URL is derived from the
base-URL environment variable. -/
theorem C8_hardcoded_base_url :
    apiServiceRequestUrl "/auth/login" = "http://localhost:5000/api/auth/login"
    ∧ apiServiceV2RequestUrl (some "https://emsbackend-92zu.onrender.com")
        "/auth/login" = "https://emsbackend-92zu.onrender.com/auth/login"
    ∧ apiServiceRequestUrl "/auth/login" ≠
        apiServiceV2RequestUrl (some "https://emsbackend-92zu.onrender.com")
          "/auth/login" := by
  refine ⟨rfl, rfl, by decide⟩

/-- JavaScript `Math.round` on a non-negative value: floor of `x + 1/2`
(halves round up); exact rational arithmetic stands for the JS float
computation. -/
def jsRound (q : ℚ) : ℤ := ⌊q + 1 / 2⌋

/-- The per-status task counts (`taskCounts`) fed to the performance
view. -/
structure TaskCounts where
  newTask : Nat
  active : Nat
  completed : Nat
  failed : Nat
deriving DecidableEq, Repr

/-- The object computed by `performanceMetrics` in
`PerformanceStats.jsx`. -/
structure Metrics where
  total : Nat
  completed : Nat
  failed : Nat
  active : Nat
  completionRate : ℤ
  failureRate : ℤ
  activeRate : ℤ
  efficiency : ℤ
deriving DecidableEq, Repr

/-- Function `performanceMetrics` of `PerformanceStats.jsx` (lines 26-48).
When `total > 0` but `completed + failed = 0`, the JavaScript division is
`0/0 = NaN`, `Math.round` propagates it, and the `isNaN` guard replaces it
by `0`; that branch is modelled explicitly. -/
def performanceMetrics (tc : TaskCounts) : Metrics :=
  let total : Nat := tc.newTask + tc.active + tc.completed + tc.failed
  { total := total
    completed := tc.completed
    failed := tc.failed
    active := tc.active
    completionRate :=
      if 0 < total then jsRound ((tc.completed : ℚ) / total * 100) else 0
    failureRate :=
      if 0 < total then jsRound ((tc.failed : ℚ) / total * 100) else 0
    activeRate :=
      if 0 < total then jsRound ((tc.active : ℚ) / total * 100) else 0
    efficiency :=
      if 0 < total then
        if tc.completed + tc.failed = 0 then 0
        else
          jsRound ((tc.completed : ℚ) / (tc.completed + tc.failed) * 100)
      else 0 }

lemma jsRound_range (q : ℚ) (h0 : 0 ≤ q) (h1 : q ≤ 100) :
    0 ≤ jsRound q ∧ jsRound q ≤ 100 := by
  constructor
  · exact Int.le_floor.mpr (by push_cast; linarith)
  · have : jsRound q < 101 := by
      rw [jsRound]
      exact Int.floor_lt.mpr (by push_cast; linarith)
    omega

lemma rate_expr_range (a b : ℕ) (hab : a ≤ b) (hb : 0 < b) :
    0 ≤ ((a : ℚ) / b * 100) ∧ ((a : ℚ) / b * 100) ≤ 100 := by
  have hbq : (0 : ℚ) < b := by exact_mod_cast hb
  constructor
  · positivity
  · have h1 : (a : ℚ) / b ≤ 1 := by
      rw [div_le_one hbq]
      exact_mod_cast hab
    nlinarith

/-- C10: for all non-negative integer task counts, the four performance
metrics are integers between 0 and 100; when the total is zero all four
are 0, and when no task is completed or failed the efficiency is reported
as 0 rather than an undefined division result. -/
theorem C10_metric_ranges (tc : TaskCounts) :
    (0 ≤ (performanceMetrics tc).completionRate ∧
      (performanceMetrics tc).completionRate ≤ 100)
    ∧ (0 ≤ (performanceMetrics tc).failureRate ∧
        (performanceMetrics tc).failureRate ≤ 100)
    ∧ (0 ≤ (performanceMetrics tc).activeRate ∧
        (performanceMetrics tc).activeRate ≤ 100)
    ∧ (0 ≤ (performanceMetrics tc).efficiency ∧
        (performanceMetrics tc).efficiency ≤ 100)
    ∧ (tc.newTask + tc.active + tc.completed + tc.failed = 0 →
        (performanceMetrics tc).completionRate = 0 ∧
        (performanceMetrics tc).failureRate = 0 ∧
        (performanceMetrics tc).activeRate = 0 ∧
        (performanceMetrics tc).efficiency = 0)
    ∧ (tc.completed + tc.failed = 0 →
        (performanceMetrics tc).efficiency = 0) := by
  rcases tc with ⟨n, a, c, f⟩
  by_cases htot : 0 < n + a + c + f
  · have hc : c ≤ n + a + c + f := by omega
    have hf : f ≤ n + a + c + f := by omega
    have ha : a ≤ n + a + c + f := by omega
    have rc := rate_expr_range c (n + a + c + f) hc htot
    have rf := rate_expr_range f (n + a + c + f) hf htot
    have ra := rate_expr_range a (n + a + c + f) ha htot
    refine ⟨?_, ?_, ?_, ?_, ?_, ?_⟩
    · simpa [performanceMetrics, htot] using
        jsRound_range _ rc.1 (by push_cast at rc ⊢; linarith [rc.2])
    · simpa [performanceMetrics, htot] using
        jsRound_range _ rf.1 (by push_cast at rf ⊢; linarith [rf.2])
    · simpa [performanceMetrics, htot] using
        jsRound_range _ ra.1 (by push_cast at ra ⊢; linarith [ra.2])
    · by_cases hcf : c + f = 0
      · simp [performanceMetrics, htot, hcf]
      · have hcf' : 0 < c + f := by omega
        have re := rate_expr_range c (c + f) (by omega) hcf'
        have := jsRound_range _ re.1 re.2
        simpa [performanceMetrics, htot, hcf] using this
    · intro h
      exfalso
      have h' : n + a + c + f = 0 := by simpa using h
      omega
    · intro hcf
      simp [performanceMetrics, htot, hcf]
  · have h0 : n + a + c + f = 0 := by omega
    refine ⟨?_, ?_, ?_, ?_, ?_, ?_⟩ <;>
      simp [performanceMetrics, htot]

/-- Witness for `C10_metric_ranges` at concrete counts with two new and
one active task, where no task is completed or failed, so the efficiency
guard is exercised. -/
theorem C10_metric_ranges_witness :
    (0 ≤ (performanceMetrics ⟨2, 1, 0, 0⟩).completionRate ∧
      (performanceMetrics ⟨2, 1, 0, 0⟩).completionRate ≤ 100)
    ∧ (0 ≤ (performanceMetrics ⟨2, 1, 0, 0⟩).efficiency ∧
        (performanceMetrics ⟨2, 1, 0, 0⟩).efficiency ≤ 100)
    ∧ (performanceMetrics ⟨2, 1, 0, 0⟩).efficiency = 0 :=
  ⟨(C10_metric_ranges ⟨2, 1, 0, 0⟩).1,
   (C10_metric_ranges ⟨2, 1, 0, 0⟩).2.2.2.1,
   (C10_metric_ranges ⟨2, 1, 0, 0⟩).2.2.2.2.2 rfl⟩

end EMS

